import Mathlib

/-!
Verification of the deployment-orchestration script `createDeployment.ts`
(together with the `setUpFeatures.ts` feature merger) of the
`pages-e2e-tests` repository.

JavaScript objects with string keys are modelled as ordered association
lists (`Obj`): the entry order is the JS insertion order, which governs
`Object.entries`/`Object.keys` for the non-numeric binding names used by
the script.  Object spread `{...a, ...b}` is modelled by `spreadTwo`:
keys of `a` keep their positions (values overridden by `b` where `b` also
has the key) and keys only in `b` are appended in the order of `b`.
-/

set_option maxRecDepth 4096

/-- A JavaScript object with string keys: an ordered association list. -/
abbrev Obj (V : Type) := List (String × V)

/-- The key list of a JS object (`Object.keys`). -/
def jsKeys {V : Type} (o : Obj V) : List String := o.map Prod.fst

/-- Property lookup on a JS object (first matching key). -/
def objLookup {V : Type} : Obj V → String → Option V
  | [], _ => none
  | (k, v) :: rest, q => if k = q then some v else objLookup rest q

/-- Left-biased choice on optional values (`a` wins when present). -/
def optOr {V : Type} : Option V → Option V → Option V
  | some v, _ => some v
  | none, b => b

/-- JS object spread `{...a, ...b}`: entries of `a` keep their position but
take the value from `b` when `b` also defines the key; keys defined only in
`b` are appended in the order of `b`. -/
def spreadTwo {V : Type} (a b : Obj V) : Obj V :=
  a.map (fun kv => (kv.1, (optOr (objLookup b kv.1) (some kv.2)).getD kv.2)) ++
    b.filter (fun kv => (objLookup a kv.1).isNone)

theorem optOr_none_right {V : Type} (a : Option V) : optOr a none = a := by
  cases a <;> rfl

theorem optOr_assoc {V : Type} (a b c : Option V) :
    optOr (optOr a b) c = optOr a (optOr b c) := by
  cases a <;> cases b <;> rfl

theorem objLookup_append {V : Type} (a b : Obj V) (k : String) :
    objLookup (a ++ b) k = optOr (objLookup a k) (objLookup b k) := by
  induction a with
  | nil => rfl
  | cons kv rest ih =>
    by_cases h : kv.1 = k
    · simp [objLookup, h, optOr]
    · simp [objLookup, h, ih]

theorem objLookup_mapVal {V W : Type} (l : Obj V) (g : String → V → W) (k : String) :
    objLookup (l.map (fun kv => (kv.1, g kv.1 kv.2))) k = (objLookup l k).map (g k) := by
  induction l with
  | nil => rfl
  | cons kv rest ih =>
    by_cases h : kv.1 = k
    · subst h; simp [objLookup]
    · simp [objLookup, h, ih]

theorem objLookup_filterKey {V : Type} (l : Obj V) (p : String → Bool) (k : String) :
    objLookup (l.filter (fun kv => p kv.1)) k =
      if p k then objLookup l k else none := by
  induction l with
  | nil => simp [objLookup]
  | cons kv rest ih =>
    by_cases hp : p kv.1
    · by_cases h : kv.1 = k
      · subst h; simp [objLookup, hp]
      · simp [objLookup, List.filter, hp, h, ih]
    · by_cases h : kv.1 = k
      · subst h
        simp [objLookup, List.filter, hp, ih]
      · simp [objLookup, List.filter, hp, h, ih]

theorem objLookup_eq_none_iff {V : Type} (l : Obj V) (k : String) :
    objLookup l k = none ↔ k ∉ jsKeys l := by
  induction l with
  | nil => simp [objLookup, jsKeys]
  | cons kv rest ih =>
    by_cases h : kv.1 = k
    · subst h; simp [objLookup, jsKeys]
    · simp [objLookup, jsKeys, h, ih]
      intro hk
      exact fun hke => h hke.symm

theorem objLookup_isSome_of_mem {V : Type} (l : Obj V) (k : String)
    (h : k ∈ jsKeys l) : ∃ v, objLookup l k = some v := by
  rcases ho : objLookup l k with _ | v
  · exact absurd h ((objLookup_eq_none_iff l k).mp ho)
  · exact ⟨v, rfl⟩

/-- Lookup after a spread: the right (later) object wins on shared keys. -/
theorem objLookup_spreadTwo {V : Type} (a b : Obj V) (k : String) :
    objLookup (spreadTwo a b) k = optOr (objLookup b k) (objLookup a k) := by
  unfold spreadTwo
  rw [objLookup_append]
  have hmap :
      objLookup (a.map (fun kv => (kv.1, (optOr (objLookup b kv.1) (some kv.2)).getD kv.2))) k =
        (objLookup a k).map (fun v => (optOr (objLookup b k) (some v)).getD v) :=
    objLookup_mapVal a (fun q v => (optOr (objLookup b q) (some v)).getD v) k
  have hfilter :
      objLookup (b.filter (fun kv => (objLookup a kv.1).isNone)) k =
        if (objLookup a k).isNone then objLookup b k else none :=
    objLookup_filterKey b (fun q => (objLookup a q).isNone) k
  rw [hmap, hfilter]
  cases ha : objLookup a k <;> cases hb : objLookup b k <;> simp [optOr]

/-! ## Data model (from `createDeployment.ts`) -/

/-- Remote deployment environments reached by `configureProject`
(`ok([Environment.Production, Environment.Staging].includes(environment))`);
the purely local mode does not talk to the remote API. -/
inductive Environment
  | production
  | staging
deriving DecidableEq

/-- An environment-indexed record `Record<Environment, α>` in a fixture or
feature deployment config; `value[environment]` is `EnvSpec.get`. -/
structure EnvSpec (α : Type) where
  production : α
  staging : α
deriving DecidableEq

def EnvSpec.get {α : Type} (s : EnvSpec α) : Environment → α
  | .production => s.production
  | .staging => s.staging

/-- Local D1 database descriptor (also the remote payload shape `{id}`). -/
structure D1Database where
  id : String
deriving DecidableEq

/-- Local namespace descriptor (`{id}`) for Durable Object and KV namespaces. -/
structure NamespaceDescriptor where
  id : String
deriving DecidableEq

/-- R2 bucket descriptor (`{name}`), local shape = remote shape. -/
structure R2Bucket where
  name : String
deriving DecidableEq

/-- Local service binding descriptor (`{name, environment}`). -/
structure ServiceDescriptor where
  name : String
  environment : String
deriving DecidableEq

/-- Queue producer descriptor (`{name}`), local shape = remote shape. -/
structure QueueProducer where
  name : String
deriving DecidableEq

/-- Local Analytics Engine dataset descriptor (`{name}`). -/
structure AnalyticsDataset where
  name : String
deriving DecidableEq

/-- Remote env var representation `{type: "plain_text", value}`. -/
structure RemoteEnvVar where
  type : String
  value : String
deriving DecidableEq

/-- Remote namespace binding representation `{namespace_id}`. -/
structure RemoteNamespace where
  namespace_id : String
deriving DecidableEq

/-- Remote service binding representation `{service, environment}`. -/
structure RemoteService where
  service : String
  environment : String
deriving DecidableEq

/-- Remote Analytics Engine dataset representation `{dataset}`. -/
structure RemoteDataset where
  dataset : String
deriving DecidableEq

/-- The eight binding-category maps of a deployment configuration
(environment variables plus the seven resource categories); used for the
fixture config, each feature config, and the combined config. -/
structure DeployCfg where
  environmentVariables : Obj String
  d1Databases : Obj (EnvSpec D1Database)
  durableObjectNamespaces : Obj (EnvSpec NamespaceDescriptor)
  kvNamespaces : Obj (EnvSpec NamespaceDescriptor)
  r2Buckets : Obj (EnvSpec R2Bucket)
  services : Obj (EnvSpec ServiceDescriptor)
  queueProducers : Obj (EnvSpec QueueProducer)
  analyticsEngineDatasets : Obj (EnvSpec AnalyticsDataset)
deriving DecidableEq

/-- Fixture build configuration; `none` models an `undefined` field. -/
structure FixtureBuildConfig where
  buildCommand : Option String
  buildOutputDirectory : Option String
  rootDirectory : Option String
deriving DecidableEq

/-- The fixture configuration parts consumed by `configureProject`. -/
structure FixtureConfig where
  buildConfig : FixtureBuildConfig
  compatibilityDate : String
  compatibilityFlags : List String
  deploymentConfig : DeployCfg
deriving DecidableEq

/-- `Project["deployment_configs"]["preview"]` as fetched from the remote
API: every binding category may be absent/null (`Option`), and values are
in the remote representation. -/
structure PreviewConfig where
  compatibility_date : String
  compatibility_flags : List String
  env_vars : Option (Obj RemoteEnvVar)
  d1_databases : Option (Obj D1Database)
  durable_object_namespaces : Option (Obj RemoteNamespace)
  kv_namespaces : Option (Obj RemoteNamespace)
  r2_buckets : Option (Obj R2Bucket)
  services : Option (Obj RemoteService)
  queue_producers : Option (Obj QueueProducer)
  analytics_engine_datasets : Option (Obj RemoteDataset)
deriving DecidableEq

/-- `Project["build_config"]` as sent and echoed by the remote API. -/
structure BuildConfig where
  build_command : String
  destination_dir : String
  root_dir : String
deriving DecidableEq

/-- A remote Pages project (the parts read and written by the script). -/
structure Project where
  build_config : BuildConfig
  preview : PreviewConfig
deriving DecidableEq

/-! ## Config Merger (`combinedDeploymentConfig` and `setUpFeatures`) -/

/-- The initial `featuresConfig` literal of `setUpFeatures`: seven empty
category maps; the literal has no `analyticsEngineDatasets` property, which
is modelled as the empty map. -/
def emptyFeaturesConfig : DeployCfg :=
  { environmentVariables := []
    d1Databases := []
    durableObjectNamespaces := []
    kvNamespaces := []
    r2Buckets := []
    services := []
    queueProducers := []
    analyticsEngineDatasets := [] }

/-- One iteration of the feature loop of `setUpFeatures`: the accumulated
`featuresConfig.deploymentConfig` is replaced by a literal that spreads the
accumulator under the feature config for seven categories; the literal has
no `analyticsEngineDatasets` property (modelled as the empty map), so any
analytics datasets of the accumulator or the feature are dropped. -/
def featureStep (acc cfg : DeployCfg) : DeployCfg :=
  { environmentVariables := spreadTwo acc.environmentVariables cfg.environmentVariables
    d1Databases := spreadTwo acc.d1Databases cfg.d1Databases
    durableObjectNamespaces := spreadTwo acc.durableObjectNamespaces cfg.durableObjectNamespaces
    kvNamespaces := spreadTwo acc.kvNamespaces cfg.kvNamespaces
    r2Buckets := spreadTwo acc.r2Buckets cfg.r2Buckets
    services := spreadTwo acc.services cfg.services
    queueProducers := spreadTwo acc.queueProducers cfg.queueProducers
    analyticsEngineDatasets := [] }

/-- The `featuresConfig.deploymentConfig` produced by `setUpFeatures` for
the resolved feature configs in listed order. -/
def setUpFeaturesConfig (features : List DeployCfg) : DeployCfg :=
  features.foldl featureStep emptyFeaturesConfig

/-- `combinedDeploymentConfig` of `createDeployment`: for each of the eight
maps, spread the fixture config under the features config. -/
def combinedDeploymentConfig (fixtureCfg featuresCfg : DeployCfg) : DeployCfg :=
  { environmentVariables :=
      spreadTwo fixtureCfg.environmentVariables featuresCfg.environmentVariables
    d1Databases := spreadTwo fixtureCfg.d1Databases featuresCfg.d1Databases
    durableObjectNamespaces :=
      spreadTwo fixtureCfg.durableObjectNamespaces featuresCfg.durableObjectNamespaces
    kvNamespaces := spreadTwo fixtureCfg.kvNamespaces featuresCfg.kvNamespaces
    r2Buckets := spreadTwo fixtureCfg.r2Buckets featuresCfg.r2Buckets
    services := spreadTwo fixtureCfg.services featuresCfg.services
    queueProducers := spreadTwo fixtureCfg.queueProducers featuresCfg.queueProducers
    analyticsEngineDatasets :=
      spreadTwo fixtureCfg.analyticsEngineDatasets featuresCfg.analyticsEngineDatasets }

/-- End-to-end merge of the ordered input list: the fixture deployment
config followed by the resolved feature configs as folded by
`setUpFeatures`. -/
def combinedOfRun (fixtureCfg : DeployCfg) (features : List DeployCfg) : DeployCfg :=
  combinedDeploymentConfig fixtureCfg (setUpFeaturesConfig features)

/-- The value the ordered input list assigns to a key under last-writer-wins
overlay semantics (later configs override earlier ones). -/
def overlayLookup {V : Type} (objs : List (Obj V)) (k : String) : Option V :=
  objs.foldl (fun acc o => optOr (objLookup o k) acc) none

/-! ## Remote Project Reconciler: update payload (`configureProject`) -/

/-- JS string-or default `a || b` where `a` may be `undefined` (`none`) and
the empty string is falsy. -/
def jsStringOr (a : Option String) (b : String) : String :=
  match a with
  | none => b
  | some s => if s = "" then b else s

/-- The per-category update payload of `configureProject`: spread the keys
currently present remotely, each mapped to `null`, under the desired
(combined) entries mapped to their environment-specific remote
representation `f`. `none` in the value position models JSON `null`. -/
def categoryUpdatePayload {V U W : Type} (remote : Obj V) (desired : Obj U)
    (f : U → W) : Obj (Option W) :=
  spreadTwo (remote.map (fun kv => (kv.1, (none : Option W))))
    (desired.map (fun kv => (kv.1, some (f kv.2))))

/-- Env var to remote representation: `{type: "plain_text", value}`. -/
def envVarRemote (v : String) : RemoteEnvVar := ⟨"plain_text", v⟩

/-- D1 database to remote representation: `value[environment]`. -/
def d1Remote (env : Environment) (v : EnvSpec D1Database) : D1Database := v.get env

/-- Durable Object namespace to remote representation:
`{namespace_id: value[environment].id}`. -/
def doRemote (env : Environment) (v : EnvSpec NamespaceDescriptor) : RemoteNamespace :=
  ⟨(v.get env).id⟩

/-- KV namespace to remote representation:
`{namespace_id: value[environment].id}`. -/
def kvRemote (env : Environment) (v : EnvSpec NamespaceDescriptor) : RemoteNamespace :=
  ⟨(v.get env).id⟩

/-- R2 bucket to remote representation: `value[environment]`. -/
def r2Remote (env : Environment) (v : EnvSpec R2Bucket) : R2Bucket := v.get env

/-- Service binding to remote representation:
`{service: value[environment].name, environment: value[environment].environment}`. -/
def serviceRemote (env : Environment) (v : EnvSpec ServiceDescriptor) : RemoteService :=
  ⟨(v.get env).name, (v.get env).environment⟩

/-- Queue producer to remote representation: `value[environment]`. -/
def queueRemote (env : Environment) (v : EnvSpec QueueProducer) : QueueProducer := v.get env

/-- Analytics Engine dataset to remote representation:
`{dataset: value[environment].name}`. -/
def analyticsRemote (env : Environment) (v : EnvSpec AnalyticsDataset) : RemoteDataset :=
  ⟨(v.get env).name⟩

/-- The `deployment_configs.preview` part of the PATCH payload: category
maps whose values are either `null` (delete) or a remote representation. -/
structure PayloadPreview where
  compatibility_date : String
  compatibility_flags : List String
  env_vars : Obj (Option RemoteEnvVar)
  d1_databases : Obj (Option D1Database)
  durable_object_namespaces : Obj (Option RemoteNamespace)
  kv_namespaces : Obj (Option RemoteNamespace)
  r2_buckets : Obj (Option R2Bucket)
  services : Obj (Option RemoteService)
  queue_producers : Obj (Option QueueProducer)
  analytics_engine_datasets : Obj (Option RemoteDataset)
deriving DecidableEq

/-- The full PATCH payload of `configureProject` (`build_config` plus
`deployment_configs.preview`). -/
structure PatchPayload where
  build_config : BuildConfig
  preview : PayloadPreview
deriving DecidableEq

/-- The `updatePayload` object computed by `configureProject` from the
fetched `initialProject`, the fixture config and the combined deployment
config, for the target environment. -/
def updatePayload (fix : FixtureConfig) (combined : DeployCfg)
    (initialProject : Project) (env : Environment) : PatchPayload :=
  { build_config :=
      { build_command := jsStringOr fix.buildConfig.buildCommand ""
        destination_dir := jsStringOr fix.buildConfig.buildOutputDirectory ""
        root_dir := jsStringOr fix.buildConfig.rootDirectory "" }
    preview :=
      { compatibility_date := fix.compatibilityDate
        compatibility_flags := fix.compatibilityFlags
        env_vars :=
          categoryUpdatePayload (initialProject.preview.env_vars.getD [])
            combined.environmentVariables envVarRemote
        d1_databases :=
          categoryUpdatePayload (initialProject.preview.d1_databases.getD [])
            combined.d1Databases (d1Remote env)
        durable_object_namespaces :=
          categoryUpdatePayload (initialProject.preview.durable_object_namespaces.getD [])
            combined.durableObjectNamespaces (doRemote env)
        kv_namespaces :=
          categoryUpdatePayload (initialProject.preview.kv_namespaces.getD [])
            combined.kvNamespaces (kvRemote env)
        r2_buckets :=
          categoryUpdatePayload (initialProject.preview.r2_buckets.getD [])
            combined.r2Buckets (r2Remote env)
        services :=
          categoryUpdatePayload (initialProject.preview.services.getD [])
            combined.services (serviceRemote env)
        queue_producers :=
          categoryUpdatePayload (initialProject.preview.queue_producers.getD [])
            combined.queueProducers (queueRemote env)
        analytics_engine_datasets :=
          categoryUpdatePayload (initialProject.preview.analytics_engine_datasets.getD [])
            combined.analyticsEngineDatasets (analyticsRemote env) } }

/-! ## Remote Project Reconciler: post-write verification -/

/-- JS strict equality `a === b` where `a` is a string from the response
and `b` is a possibly-`undefined` fixture field; a string is never
strictly equal to `undefined`. -/
def jsStrictEqOpt (a : String) (b : Option String) : Bool :=
  match b with
  | some t => decide (a = t)
  | none => false

/-- The ordered entry list computed from a desired category map by mapping
each value to its remote representation
(`Object.entries(desired).map(([name, value]) => [name, f(value)])`). -/
def entryList {U W : Type} (desired : Obj U) (f : U → W) : Obj W :=
  desired.map (fun kv => (kv.1, f kv.2))

/-- One `assert.deepStrictEqual` comparison of `configureProject`: the
ordered entry list of the response category versus the ordered entry list
computed from the desired config. -/
def catCheck {U W : Type} [DecidableEq W] (remote : Obj W) (desired : Obj U)
    (f : U → W) : Bool :=
  decide (remote = entryList desired f)

/-- The ordered list of `(condition, assertion message)` pairs checked by
`configureProject` against the PATCH response, in source order. -/
def checkList (project : Project) (fix : FixtureConfig) (combined : DeployCfg)
    (env : Environment) : List (Bool × String) :=
  [ (jsStrictEqOpt project.build_config.build_command fix.buildConfig.buildCommand,
      "Build command was not set correctly."),
    (jsStrictEqOpt project.build_config.destination_dir fix.buildConfig.buildOutputDirectory,
      "Build output directory was not set correctly."),
    (jsStrictEqOpt project.build_config.root_dir fix.buildConfig.rootDirectory,
      "Root directory was not set correctly."),
    (decide (project.preview.compatibility_date = fix.compatibilityDate),
      "Compatibility date was not set correctly."),
    (decide (project.preview.compatibility_flags = fix.compatibilityFlags),
      "Compatibility flags were not set correctly."),
    (catCheck (project.preview.env_vars.getD []) combined.environmentVariables envVarRemote,
      "Environment variables were not set correctly."),
    (catCheck (project.preview.d1_databases.getD []) combined.d1Databases (d1Remote env),
      "D1 database bindings were not set correctly."),
    (catCheck (project.preview.durable_object_namespaces.getD [])
        combined.durableObjectNamespaces (doRemote env),
      "Durable Object namespace bindings were not set correctly."),
    (catCheck (project.preview.kv_namespaces.getD []) combined.kvNamespaces (kvRemote env),
      "KV namespace bindings were not set correctly."),
    (catCheck (project.preview.r2_buckets.getD []) combined.r2Buckets (r2Remote env),
      "R2 bucket bindings were not set correctly."),
    (catCheck (project.preview.services.getD []) combined.services (serviceRemote env),
      "Service bindings were not set correctly."),
    (catCheck (project.preview.queue_producers.getD []) combined.queueProducers (queueRemote env),
      "Queue Producer bindings were not set correctly."),
    (catCheck (project.preview.analytics_engine_datasets.getD [])
        combined.analyticsEngineDatasets (analyticsRemote env),
      "Analytics Engine dataset bindings were not set correctly.") ]

/-- The message of the first failed assertion, if any (the first failing
`ok`/`deepStrictEqual` throws; the catch block wraps and rethrows it). -/
def firstFailure : List (Bool × String) → Option String
  | [] => none
  | (true, _) :: rest => firstFailure rest
  | (false, m) :: _ => some m

/-- Post-write verification of `configureProject`: `none` means every
assertion passed; `some m` means verification threw with message `m` and
the reconcile call rejects. -/
def verifyProject (project : Project) (fix : FixtureConfig) (combined : DeployCfg)
    (env : Environment) : Option String :=
  firstFailure (checkList project fix combined env)

/-- The assertion messages of `configureProject`, in source order; every
verification failure carries one of these, naming the failing field or
binding category. -/
def verificationMessages : List String :=
  [ "Build command was not set correctly.",
    "Build output directory was not set correctly.",
    "Root directory was not set correctly.",
    "Compatibility date was not set correctly.",
    "Compatibility flags were not set correctly.",
    "Environment variables were not set correctly.",
    "D1 database bindings were not set correctly.",
    "Durable Object namespace bindings were not set correctly.",
    "KV namespace bindings were not set correctly.",
    "R2 bucket bindings were not set correctly.",
    "Service bindings were not set correctly.",
    "Queue Producer bindings were not set correctly.",
    "Analytics Engine dataset bindings were not set correctly." ]

/-! ## Deployment Poller (`createDeployment` check interval) -/

/-- Polling-loop constants consumed from the configuration module:
`DEPLOYMENT_CHECK_API_FAILURES_THRESHOLD` and `DEPLOYMENT_TIMEOUT` (ms). -/
structure PollerParams where
  threshold : Nat
  timeout : Nat
deriving DecidableEq

/-- Errors produced by the deployment poller. -/
inductive DeployError
  /-- The hard-timeout error (`Deployment did not complete within ...`). -/
  | timeout (ms : Nat)
  /-- The deployment-failed error, carrying the stage name, the stage
  status and the dashboard link of its message. -/
  | deployFailed (stage status dashboardUrl : String)
  /-- The wrapped `transformResponseIntoError` error of the n-th not-OK
  API response. -/
  | apiError (attempt : Nat)
deriving DecidableEq

/-- Outcome of the fetch+parse part of one tick: either the fetch, the
`.text()` or `JSON.parse` threw, or a parsed body with `result.url` and
`result.latest_stage`. -/
inductive FetchResult
  | fetchError
  | parsed (url stageName stageStatus : String)
deriving DecidableEq

/-- What the body of one deployment-check tick does. -/
inductive TickAction
  /-- `resolveWithDeploymentSuccess(url)`: clears the interval and
  resolves the outcome promise. -/
  | resolveOutcome (url : String)
  /-- `rejectWithDeploymentFailure(error)`: clears the interval and
  rejects the outcome promise. -/
  | rejectOutcome (e : DeployError)
  /-- `logger.debug("Deployment is ongoing. ...")`: remain pending. -/
  | logPending
  /-- Not-OK response at or below the threshold: `logger.debug` only,
  remain pending. -/
  | suppressError
  /-- Not-OK response above the threshold: `throw error` inside the
  un-awaited `async` closure of the tick — an unhandled promise
  rejection; neither `resolveWithDeploymentSuccess` nor
  `rejectWithDeploymentFailure` is called and the interval keeps
  running. -/
  | throwUnhandled (e : DeployError)
deriving DecidableEq

/-- The `catch` branch of a deployment-check tick: increment
`notOkResponses`; above the threshold `throw` the wrapped error (inside
the un-awaited closure), otherwise log and suppress it. -/
def notOkBump (p : PollerParams) (notOk : Nat) : Nat × TickAction :=
  let n := notOk + 1
  if n > p.threshold then (n, TickAction.throwUnhandled (DeployError.apiError n))
  else (n, TickAction.suppressError)

/-- One deployment-check tick body given the current `notOkResponses`
counter and the fetch outcome.  A parsed body with a falsy `url` or
`latest_stage.status` fails the `ok(...)` assertions inside the `try`
block and is handled by the same `catch` as a fetch error.  `dash` is the
dashboard link interpolated into the failure message. -/
def deploymentTick (p : PollerParams) (dash : String) (notOk : Nat) :
    FetchResult → Nat × TickAction
  | FetchResult.fetchError => notOkBump p notOk
  | FetchResult.parsed url stageName stageStatus =>
    if url = "" ∨ stageStatus = "" then notOkBump p notOk
    else if stageName = "deploy" ∧ stageStatus = "success" then
      (notOk, TickAction.resolveOutcome url)
    else if ¬ (stageStatus ∈ (["idle", "active", "success"] : List String)) then
      (notOk, TickAction.rejectOutcome (DeployError.deployFailed stageName stageStatus dash))
    else (notOk, TickAction.logPending)

/-- How a deployment-poller invocation can end. -/
inductive PollResult
  /-- The outcome promise was resolved with the deployment url. -/
  | success (url : String)
  /-- The outcome promise was rejected. -/
  | failure (e : DeployError)
  /-- An error was thrown inside the un-awaited tick closure: an
  unhandled promise rejection; the outcome promise is never settled. -/
  | crashed (e : DeployError)
deriving DecidableEq

/-- Run the deployment poller over a list of ticks, each a pair of the
tick time (`Date.now()`) and its fetch outcome.  Each tick first checks
`Date.now() > startDeployment + DEPLOYMENT_TIMEOUT` and rejects with the
timeout error before any fetch; the first settle wins and clears the
interval.  Returns the settle result (`none` = still pending after the
given ticks) and the final `notOkResponses` counter. -/
def runDeploymentPoller (p : PollerParams) (dash : String) (start : Nat) :
    Nat → List (Nat × FetchResult) → Option PollResult × Nat
  | notOk, [] => (none, notOk)
  | notOk, (now, r) :: rest =>
    if now > start + p.timeout then
      (some (PollResult.failure (DeployError.timeout p.timeout)), notOk)
    else
      match deploymentTick p dash notOk r with
      | (n, TickAction.resolveOutcome url) => (some (PollResult.success url), n)
      | (n, TickAction.rejectOutcome e) => (some (PollResult.failure e), n)
      | (n, TickAction.throwUnhandled e) => (some (PollResult.crashed e), n)
      | (n, TickAction.logPending) => runDeploymentPoller p dash start n rest
      | (n, TickAction.suppressError) => runDeploymentPoller p dash start n rest

/-! ## Edge-Availability Poller (`waitForDeploymentToBeProvisioned`) -/

/-- Outcome of one probe of the deployed url: the probe threw, or the
`responseIsNotProvisioned` predicate classified the response. -/
inductive ProbeResult
  | exception
  | response (notProvisioned : Bool)
deriving DecidableEq

/-- What the body of one provisioner tick does. -/
inductive ProvAction
  /-- `resolveWithProvisionerSuccess()`. -/
  | resolveOutcome
  /-- `logger.debug("Deployment is not yet available at the edge.")`. -/
  | logNotYetAvailable
  /-- `catch`: `logger.debug("Could not check the deployment URL.")`. -/
  | logCouldNotCheck
deriving DecidableEq

/-- One provisioner tick body: a probe exception is only logged at debug
level, a not-provisioned response is only logged at debug level, and any
other response resolves the outcome promise. -/
def provisionerTick : ProbeResult → ProvAction
  | ProbeResult.exception => ProvAction.logCouldNotCheck
  | ProbeResult.response true => ProvAction.logNotYetAvailable
  | ProbeResult.response false => ProvAction.resolveOutcome

/-- How an edge-availability poller invocation can end. -/
inductive ProvResult
  | provisioned
  | failed (e : DeployError)
deriving DecidableEq

/-- Run the edge-availability poller over a list of ticks (tick time and
probe outcome).  Each tick first checks
`Date.now() > startProvisioner + PROVISIONER_TIMEOUT` and rejects with
the timeout error; the first settle wins and clears the interval.
`none` means still pending after the given ticks. -/
def runProvisioner (timeoutMs start : Nat) :
    List (Nat × ProbeResult) → Option ProvResult
  | [] => none
  | (now, r) :: rest =>
    if now > start + timeoutMs then
      some (ProvResult.failed (DeployError.timeout timeoutMs))
    else
      match provisionerTick r with
      | ProvAction.resolveOutcome => some ProvResult.provisioned
      | ProvAction.logNotYetAvailable => runProvisioner timeoutMs start rest
      | ProvAction.logCouldNotCheck => runProvisioner timeoutMs start rest

/-! ## Orchestration order of the remote (non-direct-upload) path -/

/-- The externally visible steps of the remote deployment path of
`createDeployment`, in the order the source performs them. -/
inductive Event
  | gitPush
  | registerDeleteGitBranch
  | createDeployHook
  | registerDeleteDeployHook
  | acquireMutex
  | reconcileProject
  | fireDeployHook
  | releaseMutexCall
  | warnReleaseFailure
  | pollStart
deriving DecidableEq

/-- Whether the orchestration body returned normally or threw. -/
inductive RunResult
  | ok
  | threw
deriving DecidableEq

/-- The remote (non-direct-upload) path of `createDeployment` as a trace
of events, parameterized by which fallible steps succeed: deploy-hook
creation, `configureProject`, firing the deploy hook, and
`releaseMutex`.  A `releaseMutex` failure is caught and logged with
`logger.warn`; every other listed failure propagates out of the function
(there is no `finally` releasing the mutex). -/
def createDeploymentRun (hookOk reconcileOk fireOk releaseOk : Bool) :
    List Event × RunResult :=
  let t0 := [Event.gitPush, Event.registerDeleteGitBranch, Event.createDeployHook]
  if hookOk = false then (t0, RunResult.threw)
  else
    let t1 := t0 ++ [Event.registerDeleteDeployHook, Event.acquireMutex, Event.reconcileProject]
    if reconcileOk = false then (t1, RunResult.threw)
    else
      let t2 := t1 ++ [Event.fireDeployHook]
      if fireOk = false then (t2, RunResult.threw)
      else
        let t3 := t2 ++ [Event.releaseMutexCall]
        let t4 := if releaseOk then t3 else t3 ++ [Event.warnReleaseFailure]
        (t4 ++ [Event.pollStart], RunResult.ok)

/-! ## Helper lemmas about the update payload -/

/-- The three key-wise properties of a per-category update payload:
remote-only keys map to `null`, desired keys map to their remote-shape
value, keys absent from both are absent from the payload. -/
def payloadCatOk {V U W : Type} (payloadCat : Obj (Option W)) (remote : Obj V)
    (desired : Obj U) (f : U → W) : Prop :=
  ∀ k : String,
    (k ∈ jsKeys remote → k ∉ jsKeys desired → objLookup payloadCat k = some none) ∧
    (∀ u, objLookup desired k = some u → objLookup payloadCat k = some (some (f u))) ∧
    (k ∉ jsKeys remote → k ∉ jsKeys desired → objLookup payloadCat k = none)

theorem categoryUpdatePayload_lookup {V U W : Type} (remote : Obj V) (desired : Obj U)
    (f : U → W) (k : String) :
    objLookup (categoryUpdatePayload remote desired f) k =
      optOr ((objLookup desired k).map (fun u => some (f u)))
        ((objLookup remote k).map (fun _ => (none : Option W))) := by
  have hd : objLookup (desired.map (fun kv => (kv.1, some (f kv.2)))) k =
      (objLookup desired k).map (fun u => some (f u)) :=
    objLookup_mapVal desired (fun _ u => some (f u)) k
  have hr : objLookup (remote.map (fun kv => (kv.1, (none : Option W)))) k =
      (objLookup remote k).map (fun _ => (none : Option W)) :=
    objLookup_mapVal remote (fun _ _ => (none : Option W)) k
  unfold categoryUpdatePayload
  rw [objLookup_spreadTwo, hd, hr]

theorem categoryUpdatePayload_ok {V U W : Type} (remote : Obj V) (desired : Obj U)
    (f : U → W) : payloadCatOk (categoryUpdatePayload remote desired f) remote desired f := by
  intro k
  refine ⟨fun hr hd => ?_, fun u hu => ?_, fun hr hd => ?_⟩
  · obtain ⟨v, hv⟩ := objLookup_isSome_of_mem remote k hr
    have hdn : objLookup desired k = none := by
      rw [objLookup_eq_none_iff]; exact hd
    rw [categoryUpdatePayload_lookup, hv, hdn]
    rfl
  · rw [categoryUpdatePayload_lookup, hu]
    rfl
  · have hrn : objLookup remote k = none := by
      rw [objLookup_eq_none_iff]; exact hr
    have hdn : objLookup desired k = none := by
      rw [objLookup_eq_none_iff]; exact hd
    rw [categoryUpdatePayload_lookup, hrn, hdn]
    rfl

/-! ## Claim C1 -/

/-- C1 (confirmed): for every binding category of the PATCH payload built
by `configureProject`, every key currently present in the fetched remote
preview config and absent from the desired combined config is mapped to
`null`; every key of the desired combined config is mapped to its
environment-specific remote representation (the desired overlay wins over
the `null` for keys present in both); and a key absent from both the
remote preview config and the desired config does not appear in the
payload category at all. -/
theorem C1_updatePayload_nullOverlay :
    ∀ (fix : FixtureConfig) (combined : DeployCfg) (proj : Project) (env : Environment),
    payloadCatOk (updatePayload fix combined proj env).preview.env_vars
      (proj.preview.env_vars.getD []) combined.environmentVariables envVarRemote ∧
    payloadCatOk (updatePayload fix combined proj env).preview.d1_databases
      (proj.preview.d1_databases.getD []) combined.d1Databases (d1Remote env) ∧
    payloadCatOk (updatePayload fix combined proj env).preview.durable_object_namespaces
      (proj.preview.durable_object_namespaces.getD []) combined.durableObjectNamespaces
      (doRemote env) ∧
    payloadCatOk (updatePayload fix combined proj env).preview.kv_namespaces
      (proj.preview.kv_namespaces.getD []) combined.kvNamespaces (kvRemote env) ∧
    payloadCatOk (updatePayload fix combined proj env).preview.r2_buckets
      (proj.preview.r2_buckets.getD []) combined.r2Buckets (r2Remote env) ∧
    payloadCatOk (updatePayload fix combined proj env).preview.services
      (proj.preview.services.getD []) combined.services (serviceRemote env) ∧
    payloadCatOk (updatePayload fix combined proj env).preview.queue_producers
      (proj.preview.queue_producers.getD []) combined.queueProducers (queueRemote env) ∧
    payloadCatOk (updatePayload fix combined proj env).preview.analytics_engine_datasets
      (proj.preview.analytics_engine_datasets.getD []) combined.analyticsEngineDatasets
      (analyticsRemote env) := by
  intro fix combined proj env
  exact ⟨categoryUpdatePayload_ok _ _ _, categoryUpdatePayload_ok _ _ _,
    categoryUpdatePayload_ok _ _ _, categoryUpdatePayload_ok _ _ _,
    categoryUpdatePayload_ok _ _ _, categoryUpdatePayload_ok _ _ _,
    categoryUpdatePayload_ok _ _ _, categoryUpdatePayload_ok _ _ _⟩

/-- The KV namespace value of the scenario of the spec:
`{namespace_id: "abc"}` for every environment. -/
def kvDesiredC1 : EnvSpec NamespaceDescriptor := ⟨⟨"abc"⟩, ⟨"abc"⟩⟩

/-- A combined config whose only binding is `kvNamespaces.CACHE`. -/
def combinedC1 : DeployCfg :=
  { emptyFeaturesConfig with kvNamespaces := [("CACHE", kvDesiredC1)] }

/-- A fetched remote project whose preview config has only
`kv_namespaces.OLD = {namespace_id: "zzz"}`. -/
def projC1 : Project :=
  { build_config := ⟨"", "", ""⟩
    preview :=
      { compatibility_date := "2023-01-01"
        compatibility_flags := []
        env_vars := none
        d1_databases := none
        durable_object_namespaces := none
        kv_namespaces := some [("OLD", ⟨"zzz"⟩)]
        r2_buckets := none
        services := none
        queue_producers := none
        analytics_engine_datasets := none } }

/-- A fixture config for the scenario of the spec. -/
def fixC1 : FixtureConfig :=
  { buildConfig := ⟨some "npm run build", some "dist", some "."⟩
    compatibilityDate := "2023-01-01"
    compatibilityFlags := []
    deploymentConfig := combinedC1 }

/-- Witness for C1, the scenario of the spec: remote has only `OLD`,
desired has only `CACHE`, so the payload maps `OLD` to `null` and `CACHE`
to `{namespace_id: "abc"}`, and an unrelated key appears nowhere. -/
theorem C1_updatePayload_nullOverlay_witness :
    objLookup (updatePayload fixC1 combinedC1 projC1 Environment.production).preview.kv_namespaces
        "OLD" = some none ∧
    objLookup (updatePayload fixC1 combinedC1 projC1 Environment.production).preview.kv_namespaces
        "CACHE" = some (some ⟨"abc"⟩) ∧
    objLookup (updatePayload fixC1 combinedC1 projC1 Environment.production).preview.kv_namespaces
        "OTHER" = none := by
  have h := (C1_updatePayload_nullOverlay fixC1 combinedC1 projC1 Environment.production).2.2.2.1
  exact ⟨(h "OLD").1 (by decide) (by decide),
    (h "CACHE").2.1 kvDesiredC1 (by decide),
    (h "OTHER").2.2 (by decide) (by decide)⟩

/-! ## Claim C2 -/

/-- C2 (confirmed): for a successfully parsed poll response (truthy `url`
and `latest_stage.status`, so the `ok(...)` assertions pass), the tick
classification is exactly three-way: it resolves with Success(url) iff
the stage is named `deploy` with status `success`; it rejects — with an
error carrying the stage name, the status and the dashboard link — iff
the status is outside `idle`/`active`/`success`; otherwise it stays
pending (in particular a `success` status under a stage not named
`deploy` stays pending), and no stage name other than `deploy` ever
resolves. The counter is untouched. -/
theorem C2_deploymentClassification :
    ∀ (p : PollerParams) (dash : String) (notOk : Nat) (url stageName stageStatus : String),
    url ≠ "" → stageStatus ≠ "" →
    ((deploymentTick p dash notOk (FetchResult.parsed url stageName stageStatus)).1 = notOk) ∧
    ((deploymentTick p dash notOk (FetchResult.parsed url stageName stageStatus)).2 =
        TickAction.resolveOutcome url ↔ stageName = "deploy" ∧ stageStatus = "success") ∧
    ((deploymentTick p dash notOk (FetchResult.parsed url stageName stageStatus)).2 =
        TickAction.rejectOutcome (DeployError.deployFailed stageName stageStatus dash) ↔
        stageStatus ∉ (["idle", "active", "success"] : List String)) ∧
    (∀ e, (deploymentTick p dash notOk (FetchResult.parsed url stageName stageStatus)).2 =
        TickAction.rejectOutcome e →
        stageStatus ∉ (["idle", "active", "success"] : List String) ∧
          e = DeployError.deployFailed stageName stageStatus dash) ∧
    ((deploymentTick p dash notOk (FetchResult.parsed url stageName stageStatus)).2 =
        TickAction.logPending ↔
        stageStatus ∈ (["idle", "active", "success"] : List String) ∧
          ¬(stageName = "deploy" ∧ stageStatus = "success")) ∧
    (stageName ≠ "deploy" →
      ∀ u, (deploymentTick p dash notOk (FetchResult.parsed url stageName stageStatus)).2 ≠
        TickAction.resolveOutcome u) := by
  intro p dash notOk url stageName stageStatus hu hs
  have h1 : ¬(url = "" ∨ stageStatus = "") := by
    rintro (h | h)
    · exact hu h
    · exact hs h
  by_cases h2 : stageName = "deploy" ∧ stageStatus = "success"
  · have ht : deploymentTick p dash notOk (FetchResult.parsed url stageName stageStatus) =
        (notOk, TickAction.resolveOutcome url) := by
      simp only [deploymentTick]
      rw [if_neg h1, if_pos h2]
    rw [ht]
    obtain ⟨hn, hsucc⟩ := h2
    subst hn; subst hsucc
    refine ⟨rfl, by simp, by simp, by simp, by simp, fun hne => absurd rfl hne⟩
  · by_cases h3 : stageStatus ∈ (["idle", "active", "success"] : List String)
    · have ht : deploymentTick p dash notOk (FetchResult.parsed url stageName stageStatus) =
          (notOk, TickAction.logPending) := by
        simp only [deploymentTick]
        rw [if_neg h1, if_neg h2, if_neg (not_not_intro h3)]
      rw [ht]
      refine ⟨rfl, by simp [h2], by simp [h3], by simp, by simp [h3, h2], by simp⟩
    · have ht : deploymentTick p dash notOk (FetchResult.parsed url stageName stageStatus) =
          (notOk, TickAction.rejectOutcome
            (DeployError.deployFailed stageName stageStatus dash)) := by
        simp only [deploymentTick]
        rw [if_neg h1, if_neg h2, if_pos h3]
      rw [ht]
      refine ⟨rfl, by simp [h2], by simp [h3], ?_, by simp [h3], by simp⟩
      intro e he
      simp only [Prod.snd] at he
      exact ⟨h3, (TickAction.rejectOutcome.injEq _ _).mp he.symm⟩
  
/-- Witness for C2 at concrete parsed responses: `("deploy", "success")`
resolves with the url, `("deploy", "failure")` rejects with the
stage/status/dashboard error, and `("build", "success")` stays pending. -/
theorem C2_deploymentClassification_witness :
    (deploymentTick ⟨2, 100⟩ "dashUrl" 0 (FetchResult.parsed "u" "deploy" "success")).2 =
      TickAction.resolveOutcome "u" ∧
    (deploymentTick ⟨2, 100⟩ "dashUrl" 0 (FetchResult.parsed "u" "deploy" "failure")).2 =
      TickAction.rejectOutcome (DeployError.deployFailed "deploy" "failure" "dashUrl") ∧
    (deploymentTick ⟨2, 100⟩ "dashUrl" 0 (FetchResult.parsed "u" "build" "success")).2 =
      TickAction.logPending := by
  refine ⟨?_, ?_, ?_⟩
  · exact ((C2_deploymentClassification ⟨2, 100⟩ "dashUrl" 0 "u" "deploy" "success"
      (by decide) (by decide)).2.1).mpr ⟨rfl, rfl⟩
  · exact ((C2_deploymentClassification ⟨2, 100⟩ "dashUrl" 0 "u" "deploy" "failure"
      (by decide) (by decide)).2.2.1).mpr (by decide)
  · exact ((C2_deploymentClassification ⟨2, 100⟩ "dashUrl" 0 "u" "build" "success"
      (by decide) (by decide)).2.2.2.2.1).mpr ⟨by decide, by decide⟩

/-! ## Claim C3 -/

/-- C3 (code bug evidence): every fetch/parse error increments the
`notOkResponses` counter, and at or below the threshold the error is only
logged (the tick suppresses it and the poller stays pending); but once
the counter exceeds the threshold the tick `throw`s the wrapped error
inside its own un-awaited `async` closure — it never calls
`rejectWithDeploymentFailure`, so the outcome promise owned by the poller
invocation is not rejected (the thrown error becomes an unhandled promise
rejection and the interval is not cleared).  Concretely, with threshold 2
a third consecutive error makes the run end in an unhandled crash, not in
a rejection of the outcome promise. -/
theorem C3_thresholdThrowIsUnhandled :
    (∀ (p : PollerParams) (dash : String) (notOk : Nat),
      (deploymentTick p dash notOk FetchResult.fetchError).1 = notOk + 1) ∧
    (∀ (p : PollerParams) (dash : String) (notOk : Nat),
      (deploymentTick p dash notOk FetchResult.fetchError).2 = TickAction.suppressError ∨
      (deploymentTick p dash notOk FetchResult.fetchError).2 =
        TickAction.throwUnhandled (DeployError.apiError (notOk + 1))) ∧
    (∀ (p : PollerParams) (dash : String) (notOk : Nat) (e : DeployError),
      (deploymentTick p dash notOk FetchResult.fetchError).2 ≠ TickAction.rejectOutcome e) ∧
    (∀ (p : PollerParams) (dash : String) (notOk : Nat) (u : String),
      (deploymentTick p dash notOk FetchResult.fetchError).2 ≠ TickAction.resolveOutcome u) ∧
    (deploymentTick ⟨2, 100000⟩ "dashUrl" 0 FetchResult.fetchError =
      (1, TickAction.suppressError)) ∧
    (deploymentTick ⟨2, 100000⟩ "dashUrl" 1 FetchResult.fetchError =
      (2, TickAction.suppressError)) ∧
    (deploymentTick ⟨2, 100000⟩ "dashUrl" 2 FetchResult.fetchError =
      (3, TickAction.throwUnhandled (DeployError.apiError 3))) ∧
    (runDeploymentPoller ⟨2, 100000⟩ "dashUrl" 0 0
        [(10, FetchResult.fetchError), (20, FetchResult.fetchError),
          (30, FetchResult.fetchError)] =
      (some (PollResult.crashed (DeployError.apiError 3)), 3)) := by
  refine ⟨?_, ?_, ?_, ?_, by decide, by decide, by decide, by decide⟩
  · intro p dash notOk
    simp only [deploymentTick, notOkBump]
    split <;> rfl
  · intro p dash notOk
    simp only [deploymentTick, notOkBump]
    split
    · exact Or.inr rfl
    · exact Or.inl rfl
  · intro p dash notOk e
    simp only [deploymentTick, notOkBump]
    split <;> simp
  · intro p dash notOk u
    simp only [deploymentTick, notOkBump]
    split <;> simp

/-! ## Claim C5 -/

theorem runDeploymentPoller_append (p : PollerParams) (dash : String) (start : Nat) :
    ∀ (pre l : List (Nat × FetchResult)) (n : Nat),
    (runDeploymentPoller p dash start n pre).1 = none →
    runDeploymentPoller p dash start n (pre ++ l) =
      runDeploymentPoller p dash start (runDeploymentPoller p dash start n pre).2 l := by
  intro pre
  induction pre with
  | nil =>
    intro l n h
    simp [runDeploymentPoller]
  | cons t rest ih =>
    intro l n h
    obtain ⟨now, r⟩ := t
    by_cases htime : now > start + p.timeout
    · simp only [runDeploymentPoller, if_pos htime] at h
      cases h
    · rw [List.cons_append]
      simp only [runDeploymentPoller, if_neg htime] at h ⊢
      rcases hd : deploymentTick p dash n r with ⟨n2, a⟩
      rw [hd] at h
      cases a with
      | resolveOutcome url => cases h
      | rejectOutcome e => cases h
      | throwUnhandled e => cases h
      | logPending => exact ih l n2 h
      | suppressError => exact ih l n2 h

/-- C5 (confirmed): on any tick, before any status fetch is attempted
(the conclusion does not depend on the fetch outcome of that tick), if
the tick time exceeds `startDeployment + DEPLOYMENT_TIMEOUT` the poller
rejects with the timeout failure; consequently, after any tick prefix
that produced no terminal condition (no success, no non-pending status,
no threshold breach), a tick past the deadline settles the run with the
timeout failure; and a run that is still pending has never seen a tick
past the deadline. -/
theorem C5_deploymentTimeout :
    (∀ (p : PollerParams) (dash : String) (start n now : Nat) (r : FetchResult)
        (rest : List (Nat × FetchResult)),
      now > start + p.timeout →
      (runDeploymentPoller p dash start n ((now, r) :: rest)).1 =
        some (PollResult.failure (DeployError.timeout p.timeout))) ∧
    (∀ (p : PollerParams) (dash : String) (start n now : Nat) (r : FetchResult)
        (pre rest : List (Nat × FetchResult)),
      (runDeploymentPoller p dash start n pre).1 = none →
      now > start + p.timeout →
      (runDeploymentPoller p dash start n (pre ++ (now, r) :: rest)).1 =
        some (PollResult.failure (DeployError.timeout p.timeout))) ∧
    (∀ (p : PollerParams) (dash : String) (start n : Nat)
        (ticks : List (Nat × FetchResult)),
      (runDeploymentPoller p dash start n ticks).1 = none →
      ∀ t ∈ ticks, t.1 ≤ start + p.timeout) := by
  refine ⟨?_, ?_, ?_⟩
  · intro p dash start n now r rest htime
    simp [runDeploymentPoller, if_pos htime]
  · intro p dash start n now r pre rest hpre htime
    rw [runDeploymentPoller_append p dash start pre ((now, r) :: rest) n hpre]
    simp [runDeploymentPoller, if_pos htime]
  · intro p dash start n ticks
    induction ticks generalizing n with
    | nil => intro h t ht; cases ht
    | cons t0 rest ih =>
      intro h t ht
      obtain ⟨now, r⟩ := t0
      by_cases htime : now > start + p.timeout
      · simp only [runDeploymentPoller, if_pos htime] at h
        cases h
      · simp only [runDeploymentPoller, if_neg htime] at h
        cases ht with
        | head => exact Nat.le_of_not_lt htime
        | tail _ ht =>
          rcases hd : deploymentTick p dash n r with ⟨n2, a⟩
          rw [hd] at h
          cases a with
          | resolveOutcome url => cases h
          | rejectOutcome e => cases h
          | throwUnhandled e => cases h
          | logPending => exact ih n2 h t ht
          | suppressError => exact ih n2 h t ht

/-- Witness for C5: timeout 100, one suppressed API failure at time 50,
then a tick at time 101 — past the deadline — settles the run with the
timeout failure even though that same tick would have parsed a successful
deploy stage. -/
theorem C5_deploymentTimeout_witness :
    (runDeploymentPoller ⟨2, 100⟩ "dashUrl" 0 0
        [(50, FetchResult.fetchError),
          (101, FetchResult.parsed "u" "deploy" "success")]).1 =
      some (PollResult.failure (DeployError.timeout 100)) := by
  have h := C5_deploymentTimeout.2.1 ⟨2, 100⟩ "dashUrl" 0 0 101
    (FetchResult.parsed "u" "deploy" "success") [(50, FetchResult.fetchError)] []
    (by decide) (by decide)
  exact h

/-! ## Claim C4 -/

theorem spreadTwo_nil_right {V : Type} (a : Obj V) : spreadTwo a [] = a := by
  simp [spreadTwo, objLookup, optOr]

theorem foldl_featureStep_lookup {V : Type} (proj : DeployCfg → Obj V)
    (hstep : ∀ a c, proj (featureStep a c) = spreadTwo (proj a) (proj c)) :
    ∀ (features : List DeployCfg) (acc : DeployCfg) (k : String),
    objLookup (proj (features.foldl featureStep acc)) k =
      features.foldl (fun r c => optOr (objLookup (proj c) k) r) (objLookup (proj acc) k) := by
  intro features
  induction features with
  | nil => intro acc k; rfl
  | cons c rest ih =>
    intro acc k
    rw [List.foldl_cons, List.foldl_cons, ih, hstep, objLookup_spreadTwo]

theorem foldl_optOr_shift {α V : Type} (g : α → Option V) :
    ∀ (l : List α) (init : Option V),
    l.foldl (fun r c => optOr (g c) r) init =
      optOr (l.foldl (fun r c => optOr (g c) r) none) init := by
  intro l
  induction l with
  | nil => intro init; rfl
  | cons c rest ih =>
    intro init
    rw [List.foldl_cons, List.foldl_cons, ih (optOr (g c) init), ih (optOr (g c) none),
      optOr_none_right, optOr_assoc]

theorem combinedOfRun_lookup {V : Type} (proj : DeployCfg → Obj V)
    (hstep : ∀ a c, proj (featureStep a c) = spreadTwo (proj a) (proj c))
    (hempty : proj emptyFeaturesConfig = [])
    (hcomb : ∀ a b, proj (combinedDeploymentConfig a b) = spreadTwo (proj a) (proj b)) :
    ∀ (fixtureCfg : DeployCfg) (features : List DeployCfg) (k : String),
    objLookup (proj (combinedOfRun fixtureCfg features)) k =
      overlayLookup (proj fixtureCfg :: features.map proj) k := by
  intro fx fs k
  unfold combinedOfRun
  rw [hcomb, objLookup_spreadTwo]
  unfold setUpFeaturesConfig
  rw [foldl_featureStep_lookup proj hstep fs emptyFeaturesConfig k, hempty]
  unfold overlayLookup
  rw [List.foldl_cons, List.foldl_map, foldl_optOr_shift (fun c => objLookup (proj c) k) fs
    (optOr (objLookup (proj fx) k) none), optOr_none_right]
  rfl

theorem setUpFeaturesConfig_analytics_aux :
    ∀ (features : List DeployCfg) (acc : DeployCfg),
    acc.analyticsEngineDatasets = [] →
    (features.foldl featureStep acc).analyticsEngineDatasets = [] := by
  intro features
  induction features with
  | nil => intro acc h; exact h
  | cons c rest ih =>
    intro acc h
    rw [List.foldl_cons]
    exact ih (featureStep acc c) rfl

/-- The analytics category of the `setUpFeatures` output is always empty:
neither the initial literal nor the per-feature merge literal carries an
`analyticsEngineDatasets` property. -/
theorem setUpFeaturesConfig_analytics (features : List DeployCfg) :
    (setUpFeaturesConfig features).analyticsEngineDatasets = [] :=
  setUpFeaturesConfig_analytics_aux features emptyFeaturesConfig rfl

/-- The analytics dataset defined by the counterexample feature. -/
def analyticsValC4 : EnvSpec AnalyticsDataset := ⟨⟨"dataset-one"⟩, ⟨"dataset-one"⟩⟩

/-- A feature config whose only binding is `analyticsEngineDatasets.X`. -/
def featureC4 : DeployCfg :=
  { emptyFeaturesConfig with analyticsEngineDatasets := [("X", analyticsValC4)] }

/-- Counterexample to C4 as stated: merging a fixture with no bindings and
one feature defining `analyticsEngineDatasets.X` does NOT preserve the
later input's key `X` — the combined analytics map is empty, because the
`setUpFeatures` merge drops the analytics category. -/
theorem C4_counterexample :
    objLookup featureC4.analyticsEngineDatasets "X" = some analyticsValC4 ∧
    objLookup (combinedOfRun emptyFeaturesConfig [featureC4]).analyticsEngineDatasets "X" =
      none := by
  decide

/-- C4 (amended): for the environment-variables map and six of the seven
binding categories (D1 databases, Durable Object namespaces, KV
namespaces, R2 buckets, services, queue producers) the combined config is
the shallow key-wise last-writer-wins union of the ordered input list
(fixture config, then each resolved feature config in listed order); the
analytics-datasets category instead equals the fixture map alone, because
the `setUpFeatures` fold rebuilds its accumulator without an
`analyticsEngineDatasets` property, discarding every feature-supplied
analytics entry. -/
theorem C4_categoryOverlay :
    ∀ (fixtureCfg : DeployCfg) (features : List DeployCfg) (k : String),
    objLookup (combinedOfRun fixtureCfg features).environmentVariables k =
      overlayLookup (fixtureCfg.environmentVariables ::
        features.map DeployCfg.environmentVariables) k ∧
    objLookup (combinedOfRun fixtureCfg features).d1Databases k =
      overlayLookup (fixtureCfg.d1Databases :: features.map DeployCfg.d1Databases) k ∧
    objLookup (combinedOfRun fixtureCfg features).durableObjectNamespaces k =
      overlayLookup (fixtureCfg.durableObjectNamespaces ::
        features.map DeployCfg.durableObjectNamespaces) k ∧
    objLookup (combinedOfRun fixtureCfg features).kvNamespaces k =
      overlayLookup (fixtureCfg.kvNamespaces :: features.map DeployCfg.kvNamespaces) k ∧
    objLookup (combinedOfRun fixtureCfg features).r2Buckets k =
      overlayLookup (fixtureCfg.r2Buckets :: features.map DeployCfg.r2Buckets) k ∧
    objLookup (combinedOfRun fixtureCfg features).services k =
      overlayLookup (fixtureCfg.services :: features.map DeployCfg.services) k ∧
    objLookup (combinedOfRun fixtureCfg features).queueProducers k =
      overlayLookup (fixtureCfg.queueProducers :: features.map DeployCfg.queueProducers) k ∧
    (combinedOfRun fixtureCfg features).analyticsEngineDatasets =
      fixtureCfg.analyticsEngineDatasets := by
  intro fx fs k
  refine ⟨combinedOfRun_lookup DeployCfg.environmentVariables (fun a c => rfl) rfl
      (fun a b => rfl) fx fs k,
    combinedOfRun_lookup DeployCfg.d1Databases (fun a c => rfl) rfl (fun a b => rfl) fx fs k,
    combinedOfRun_lookup DeployCfg.durableObjectNamespaces (fun a c => rfl) rfl
      (fun a b => rfl) fx fs k,
    combinedOfRun_lookup DeployCfg.kvNamespaces (fun a c => rfl) rfl (fun a b => rfl) fx fs k,
    combinedOfRun_lookup DeployCfg.r2Buckets (fun a c => rfl) rfl (fun a b => rfl) fx fs k,
    combinedOfRun_lookup DeployCfg.services (fun a c => rfl) rfl (fun a b => rfl) fx fs k,
    combinedOfRun_lookup DeployCfg.queueProducers (fun a c => rfl) rfl (fun a b => rfl) fx fs k,
    ?_⟩
  show (combinedDeploymentConfig fx (setUpFeaturesConfig fs)).analyticsEngineDatasets =
    fx.analyticsEngineDatasets
  have h : (combinedDeploymentConfig fx (setUpFeaturesConfig fs)).analyticsEngineDatasets =
      spreadTwo fx.analyticsEngineDatasets (setUpFeaturesConfig fs).analyticsEngineDatasets :=
    rfl
  rw [h, setUpFeaturesConfig_analytics, spreadTwo_nil_right]

/-! ## Claim C6 -/

/-- C6 (confirmed): on the remote path the mutex is acquired after the
deploy hook is created and before reconciliation begins; the events
strictly between acquisition and the release call are exactly the
reconciliation and the deploy-hook firing; the release call comes
immediately after the hook fires and before deployment polling starts;
and a release failure is logged as a warning while the run still returns
normally (the failure is never propagated). -/
theorem C6_mutexCriticalSection :
    ∀ releaseOk : Bool,
    (createDeploymentRun true true true releaseOk).2 = RunResult.ok ∧
    (createDeploymentRun true true true releaseOk).1.indexOf Event.createDeployHook <
      (createDeploymentRun true true true releaseOk).1.indexOf Event.acquireMutex ∧
    (createDeploymentRun true true true releaseOk).1.indexOf Event.acquireMutex <
      (createDeploymentRun true true true releaseOk).1.indexOf Event.reconcileProject ∧
    (createDeploymentRun true true true releaseOk).1.indexOf Event.reconcileProject <
      (createDeploymentRun true true true releaseOk).1.indexOf Event.fireDeployHook ∧
    (createDeploymentRun true true true releaseOk).1.indexOf Event.releaseMutexCall =
      (createDeploymentRun true true true releaseOk).1.indexOf Event.fireDeployHook + 1 ∧
    (createDeploymentRun true true true releaseOk).1.indexOf Event.releaseMutexCall <
      (createDeploymentRun true true true releaseOk).1.indexOf Event.pollStart ∧
    (((createDeploymentRun true true true releaseOk).1.drop
        ((createDeploymentRun true true true releaseOk).1.indexOf Event.acquireMutex + 1)).takeWhile
        (fun e => e != Event.releaseMutexCall) =
      [Event.reconcileProject, Event.fireDeployHook]) ∧
    Event.warnReleaseFailure ∈ (createDeploymentRun true true true false).1 ∧
    (createDeploymentRun true true true false).2 = RunResult.ok ∧
    Event.warnReleaseFailure ∉ (createDeploymentRun true true true true).1 := by
  intro releaseOk
  cases releaseOk <;> decide

/-! ## Claim C9 -/

/-- C9 (confirmed): if reconciliation (`configureProject`) or the firing
of the deploy hook throws after the mutex has been acquired, the run
propagates the error and `releaseMutex` is never invoked — the only
release call sits after the hook-firing block and no `finally` protects
it — so on every error path inside the critical section the lease is
leaked. -/
theorem C9_mutexLeakedOnError :
    ∀ (fireOk relOk : Bool),
    ((createDeploymentRun true false fireOk relOk).2 = RunResult.threw ∧
      Event.acquireMutex ∈ (createDeploymentRun true false fireOk relOk).1 ∧
      Event.releaseMutexCall ∉ (createDeploymentRun true false fireOk relOk).1) ∧
    ((createDeploymentRun true true false relOk).2 = RunResult.threw ∧
      Event.acquireMutex ∈ (createDeploymentRun true true false relOk).1 ∧
      Event.releaseMutexCall ∉ (createDeploymentRun true true false relOk).1) := by
  intro fireOk relOk
  cases fireOk <;> cases relOk <;> decide

/-! ## Claim C7 -/

/-- C7 (confirmed): in the edge-availability poller, a probe exception on
a tick within the deadline leaves the run exactly as if the tick had not
happened (logged at debug only — there is no failure counter to
increment); the only failure the poller can ever report is the
`PROVISIONER_TIMEOUT` timeout; and after any pending prefix, the first
probe response not classified "not yet provisioned" within the deadline
resolves the poller with success. -/
theorem C7_provisionerClassification :
    (∀ (timeoutMs start now : Nat) (rest : List (Nat × ProbeResult)),
      now ≤ start + timeoutMs →
      runProvisioner timeoutMs start ((now, ProbeResult.exception) :: rest) =
        runProvisioner timeoutMs start rest) ∧
    (∀ (timeoutMs start : Nat) (ticks : List (Nat × ProbeResult)) (e : DeployError),
      runProvisioner timeoutMs start ticks = some (ProvResult.failed e) →
      e = DeployError.timeout timeoutMs) ∧
    (∀ (timeoutMs start now : Nat) (pre rest : List (Nat × ProbeResult)),
      runProvisioner timeoutMs start pre = none →
      now ≤ start + timeoutMs →
      runProvisioner timeoutMs start (pre ++ (now, ProbeResult.response false) :: rest) =
        some ProvResult.provisioned) := by
  refine ⟨?_, ?_, ?_⟩
  · intro t s now rest h
    simp only [runProvisioner, provisionerTick, if_neg (Nat.not_lt.mpr h)]
  · intro t s ticks
    induction ticks with
    | nil => intro e h; cases h
    | cons t0 rest ih =>
      intro e h
      obtain ⟨now, r⟩ := t0
      by_cases htime : now > s + t
      · simp only [runProvisioner, if_pos htime, Option.some.injEq,
          ProvResult.failed.injEq] at h
        exact h.symm
      · cases r with
        | exception =>
          simp only [runProvisioner, provisionerTick, if_neg htime] at h
          exact ih e h
        | response b =>
          cases b with
          | true =>
            simp only [runProvisioner, provisionerTick, if_neg htime] at h
            exact ih e h
          | false =>
            simp only [runProvisioner, provisionerTick, if_neg htime] at h
            cases h
  · intro t s now pre
    induction pre with
    | nil =>
      intro rest hpre hnow
      simp only [List.nil_append, runProvisioner, provisionerTick,
        if_neg (Nat.not_lt.mpr hnow)]
    | cons t0 pre2 ih =>
      intro rest hpre hnow
      obtain ⟨n0, r0⟩ := t0
      by_cases htime : n0 > s + t
      · simp only [runProvisioner, if_pos htime] at hpre
        cases hpre
      · rw [List.cons_append]
        cases r0 with
        | exception =>
          simp only [runProvisioner, provisionerTick, if_neg htime] at hpre ⊢
          exact ih rest hpre hnow
        | response b =>
          cases b with
          | true =>
            simp only [runProvisioner, provisionerTick, if_neg htime] at hpre ⊢
            exact ih rest hpre hnow
          | false =>
            simp only [runProvisioner, provisionerTick, if_neg htime] at hpre
            cases hpre

/-- Witness for C7: a probe exception, then a not-provisioned response,
then a provisioned response, all within the deadline — the run resolves
with success (the exception never escalates to a failure). -/
theorem C7_provisionerClassification_witness :
    runProvisioner 100 0
        [(10, ProbeResult.exception), (20, ProbeResult.response true),
          (30, ProbeResult.response false)] =
      some ProvResult.provisioned := by
  have h := C7_provisionerClassification.2.2 100 0 30
    [(10, ProbeResult.exception), (20, ProbeResult.response true)] []
    (by decide) (by decide)
  exact h

/-! ## Claim C8 -/

theorem firstFailure_eq_none_iff :
    ∀ (l : List (Bool × String)), firstFailure l = none ↔ ∀ bm ∈ l, bm.1 = true := by
  intro l
  induction l with
  | nil => simp [firstFailure]
  | cons bm rest ih =>
    obtain ⟨b, m⟩ := bm
    cases b with
    | true => simp [firstFailure, ih, List.forall_mem_cons]
    | false => simp [firstFailure, List.forall_mem_cons]

theorem firstFailure_mem_of_some :
    ∀ (l : List (Bool × String)) (m : String),
    firstFailure l = some m → m ∈ l.map Prod.snd := by
  intro l
  induction l with
  | nil => intro m h; cases h
  | cons bm rest ih =>
    obtain ⟨b, m0⟩ := bm
    intro m h
    cases b with
    | true =>
      simp only [firstFailure] at h
      exact List.mem_cons_of_mem _ (ih m h)
    | false =>
      simp only [firstFailure, Option.some.injEq] at h
      rw [← h]
      exact List.mem_cons_self _ _
  
theorem firstFailure_append_true :
    ∀ (pre : List (Bool × String)) (m : String) (post : List (Bool × String)),
    (∀ bm ∈ pre, bm.1 = true) →
    firstFailure (pre ++ (false, m) :: post) = some m := by
  intro pre
  induction pre with
  | nil => intro m post h; rfl
  | cons bm rest ih =>
    intro m post h
    obtain ⟨b, m0⟩ := bm
    have hb : b = true := h (b, m0) (List.mem_cons_self _ _)
    subst hb
    exact ih m post (fun x hx => h x (List.mem_cons_of_mem _ hx))

theorem jsKeys_entryList {U W : Type} (desired : Obj U) (f : U → W) :
    jsKeys (entryList desired f) = jsKeys desired := by
  induction desired with
  | nil => rfl
  | cons kv rest ih =>
    simp only [entryList, jsKeys, List.map_cons] at ih ⊢
    rw [ih]

theorem checkList_messages (project : Project) (fix : FixtureConfig)
    (combined : DeployCfg) (env : Environment) :
    (checkList project fix combined env).map Prod.snd = verificationMessages := rfl

/-- C8 (confirmed): the post-write verification compares, per binding
category, the ordered entry list of the PATCH response against the
ordered entry list computed from the desired combined config with strict
structural equality — the check passes iff the lists are equal as lists,
so a differing entry order, a key present remotely but absent from the
desired config, and a key present in the desired config but absent
remotely each make the category check false; any false check makes
verification (and thus reconcile) fail, the first failing check
determines the error, and every verification error is one of the
assertion messages naming the failing field or category. -/
theorem C8_verificationStrictOrdered :
    (∀ (U W : Type) [DecidableEq W] (remote : Obj W) (desired : Obj U) (f : U → W),
      (catCheck remote desired f = true ↔ remote = entryList desired f) ∧
      (remote ≠ entryList desired f → catCheck remote desired f = false) ∧
      (∀ k, k ∈ jsKeys remote → k ∉ jsKeys desired → catCheck remote desired f = false) ∧
      (∀ k, k ∈ jsKeys desired → k ∉ jsKeys remote → catCheck remote desired f = false)) ∧
    (∀ (project : Project) (fix : FixtureConfig) (combined : DeployCfg) (env : Environment)
        (b : Bool) (m : String),
      (b, m) ∈ checkList project fix combined env → b = false →
      verifyProject project fix combined env ≠ none) ∧
    (∀ (project : Project) (fix : FixtureConfig) (combined : DeployCfg) (env : Environment)
        (pre post : List (Bool × String)) (m : String),
      checkList project fix combined env = pre ++ (false, m) :: post →
      (∀ bm ∈ pre, bm.1 = true) →
      verifyProject project fix combined env = some m) ∧
    (∀ (project : Project) (fix : FixtureConfig) (combined : DeployCfg) (env : Environment)
        (m : String),
      verifyProject project fix combined env = some m → m ∈ verificationMessages) ∧
    (∀ (project : Project) (fix : FixtureConfig) (combined : DeployCfg) (env : Environment),
      (∀ bm ∈ checkList project fix combined env, bm.1 = true) →
      verifyProject project fix combined env = none) := by
  refine ⟨?_, ?_, ?_, ?_, ?_⟩
  · intro U W instW remote desired f
    have hkeys : jsKeys (entryList desired f) = jsKeys desired := jsKeys_entryList desired f
    refine ⟨by simp [catCheck], ?_, ?_, ?_⟩
    · intro hne
      simp only [catCheck, decide_eq_false_iff_not]
      exact hne
    · intro k hk hnk
      have hne : remote ≠ entryList desired f := by
        intro he
        rw [he, hkeys] at hk
        exact hnk hk
      simp only [catCheck, decide_eq_false_iff_not]
      exact hne
    · intro k hk hnk
      have hne : remote ≠ entryList desired f := by
        intro he
        rw [he, hkeys] at hnk
        exact hnk hk
      simp only [catCheck, decide_eq_false_iff_not]
      exact hne
  · intro project fix combined env b m hmem hb hnone
    have hall := (firstFailure_eq_none_iff (checkList project fix combined env)).mp hnone
    have := hall (b, m) hmem
    rw [hb] at this
    cases this
  · intro project fix combined env pre post m hlist hpre
    show firstFailure (checkList project fix combined env) = some m
    rw [hlist]
    exact firstFailure_append_true pre m post hpre
  · intro project fix combined env m h
    have hmem := firstFailure_mem_of_some (checkList project fix combined env) m h
    rw [checkList_messages project fix combined env] at hmem
    exact hmem
  · intro project fix combined env h
    exact (firstFailure_eq_none_iff (checkList project fix combined env)).mpr h

/-- The KV namespace value of the C8 witness scenario. -/
def kvValC8 : EnvSpec NamespaceDescriptor := ⟨⟨"abc"⟩, ⟨"abc"⟩⟩

/-- Combined config of the C8 witness scenario: only `kvNamespaces.CACHE`. -/
def combinedC8 : DeployCfg :=
  { emptyFeaturesConfig with kvNamespaces := [("CACHE", kvValC8)] }

/-- Fixture config of the C8 witness scenario. -/
def fixC8 : FixtureConfig :=
  { buildConfig := ⟨some "build it", some "dist", some "."⟩
    compatibilityDate := "2023-01-01"
    compatibilityFlags := []
    deploymentConfig := combinedC8 }

/-- PATCH response of the C8 witness scenario: build and compatibility
fields echo the fixture, every category is empty except a stale
`kv_namespaces.OLD` that the desired config does not contain. -/
def projC8 : Project :=
  { build_config := ⟨"build it", "dist", "."⟩
    preview :=
      { compatibility_date := "2023-01-01"
        compatibility_flags := []
        env_vars := none
        d1_databases := none
        durable_object_namespaces := none
        kv_namespaces := some [("OLD", ⟨"zzz"⟩)]
        r2_buckets := none
        services := none
        queue_producers := none
        analytics_engine_datasets := none } }

/-- Witness for C8: a remote-only key makes the KV category check false,
and verification of the response fails with exactly the KV assertion
message. -/
theorem C8_verificationStrictOrdered_witness :
    catCheck ([("OLD", (⟨"zzz"⟩ : RemoteNamespace))]) [("CACHE", kvValC8)]
      (kvRemote Environment.production) = false ∧
    verifyProject projC8 fixC8 combinedC8 Environment.production =
      some "KV namespace bindings were not set correctly." := by
  constructor
  · exact (C8_verificationStrictOrdered.1 (EnvSpec NamespaceDescriptor) RemoteNamespace
      [("OLD", ⟨"zzz"⟩)] [("CACHE", kvValC8)] (kvRemote Environment.production)).2.2.1
      "OLD" (by decide) (by decide)
  · exact C8_verificationStrictOrdered.2.2.1 projC8 fixC8 combinedC8 Environment.production
      [ (true, "Build command was not set correctly."),
        (true, "Build output directory was not set correctly."),
        (true, "Root directory was not set correctly."),
        (true, "Compatibility date was not set correctly."),
        (true, "Compatibility flags were not set correctly."),
        (true, "Environment variables were not set correctly."),
        (true, "D1 database bindings were not set correctly."),
        (true, "Durable Object namespace bindings were not set correctly.") ]
      [ (true, "R2 bucket bindings were not set correctly."),
        (true, "Service bindings were not set correctly."),
        (true, "Queue Producer bindings were not set correctly."),
        (true, "Analytics Engine dataset bindings were not set correctly.") ]
      "KV namespace bindings were not set correctly." (by decide) (by decide)

/-! ## Claim C10 -/

/-- Fixture of the C10 counterexample: `buildCommand` is the empty string
(falsy but defined); no bindings. -/
def fixC10 : FixtureConfig :=
  { buildConfig := ⟨some "", some "dist", some "."⟩
    compatibilityDate := "2023-01-01"
    compatibilityFlags := []
    deploymentConfig := emptyFeaturesConfig }

/-- Remote project fetched before the PATCH in the C10 scenario: empty
preview config. -/
def projInitC10 : Project :=
  { build_config := ⟨"", "", ""⟩
    preview :=
      { compatibility_date := "2023-01-01"
        compatibility_flags := []
        env_vars := none
        d1_databases := none
        durable_object_namespaces := none
        kv_namespaces := none
        r2_buckets := none
        services := none
        queue_producers := none
        analytics_engine_datasets := none } }

/-- The PATCH response of the C10 counterexample: the server echoes the
submitted payload exactly (empty category objects echo as empty maps). -/
def projEchoC10 : Project :=
  { build_config :=
      (updatePayload fixC10 emptyFeaturesConfig projInitC10 Environment.production).build_config
    preview :=
      { compatibility_date := "2023-01-01"
        compatibility_flags := []
        env_vars := some []
        d1_databases := some []
        durable_object_namespaces := some []
        kv_namespaces := some []
        r2_buckets := some []
        services := some []
        queue_producers := some []
        analytics_engine_datasets := some [] } }

/-- Counterexample to C10 as stated: for a fixture whose `buildCommand`
is the empty string (an empty-string-falsy field), the payload does
substitute the empty string, the remote echoes the submitted payload
exactly — and verification passes (`"" === ""`), so reconcile does NOT
reject: the claimed failure only occurs for `undefined` fields. -/
theorem C10_counterexample :
    fixC10.buildConfig.buildCommand = some "" ∧
    (updatePayload fixC10 emptyFeaturesConfig projInitC10
        Environment.production).build_config.build_command = "" ∧
    projEchoC10.build_config =
      (updatePayload fixC10 emptyFeaturesConfig projInitC10
        Environment.production).build_config ∧
    verifyProject projEchoC10 fixC10 emptyFeaturesConfig Environment.production = none := by
  decide

theorem firstFailure_cons_of_true {b : Bool} (m : String) (l : List (Bool × String))
    (h : b = true) : firstFailure ((b, m) :: l) = firstFailure l := by
  subst h; rfl

theorem firstFailure_cons_of_false {b : Bool} (m : String) (l : List (Bool × String))
    (h : b = false) : firstFailure ((b, m) :: l) = some m := by
  subst h; rfl

/-- A defined fixture build field (including the empty string) passes its
echo check: the payload carries `field || ""`, and for `field = some s`
strict equality against the raw field holds. -/
theorem jsEcho_defined (o : Option String) (h : o ≠ none) :
    jsStrictEqOpt (jsStringOr o "") o = true := by
  cases o with
  | none => exact absurd rfl h
  | some s =>
    by_cases hs : s = ""
    · subst hs; rfl
    · simp [jsStringOr, jsStrictEqOpt, hs]

/-- C10 (amended): for every fixture build field among `buildCommand`,
`buildOutputDirectory` and `rootDirectory` that is `undefined`, the
update payload substitutes the empty string for that field, and since
post-write verification compares the response field against the raw
fixture field with strict equality, a remote that echoes the submitted
payload exactly fails the verification of the first undefined field
(`"" === undefined` is false) and reconcile rejects with that field's
own message — the build-command, build-output-directory or
root-directory message respectively — even though the remote state
matches what was written; an empty-string (defined but falsy) field
instead passes its strict-equality check on the echo, as does any
defined field. -/
theorem C10_undefinedBuildFieldRejects :
    ∀ (fix : FixtureConfig) (combined : DeployCfg) (initialProject : Project)
      (env : Environment) (previewEcho : PreviewConfig),
    (fix.buildConfig.buildCommand = none →
      (updatePayload fix combined initialProject env).build_config.build_command = "") ∧
    (fix.buildConfig.buildOutputDirectory = none →
      (updatePayload fix combined initialProject env).build_config.destination_dir = "") ∧
    (fix.buildConfig.rootDirectory = none →
      (updatePayload fix combined initialProject env).build_config.root_dir = "") ∧
    (fix.buildConfig.buildCommand = none →
      verifyProject
        { build_config := (updatePayload fix combined initialProject env).build_config
          preview := previewEcho } fix combined env =
      some "Build command was not set correctly.") ∧
    (fix.buildConfig.buildCommand ≠ none →
      fix.buildConfig.buildOutputDirectory = none →
      verifyProject
        { build_config := (updatePayload fix combined initialProject env).build_config
          preview := previewEcho } fix combined env =
      some "Build output directory was not set correctly.") ∧
    (fix.buildConfig.buildCommand ≠ none →
      fix.buildConfig.buildOutputDirectory ≠ none →
      fix.buildConfig.rootDirectory = none →
      verifyProject
        { build_config := (updatePayload fix combined initialProject env).build_config
          preview := previewEcho } fix combined env =
      some "Root directory was not set correctly.") ∧
    (∀ o : Option String, jsStrictEqOpt (jsStringOr o "") o = true ↔ o ≠ none) := by
  intro fix combined initialProject env previewEcho
  obtain ⟨⟨bc, bod, rd⟩, cd, cf, dc⟩ := fix
  refine ⟨?_, ?_, ?_, ?_, ?_, ?_, ?_⟩
  · intro h
    simp only at h
    subst h
    rfl
  · intro h
    simp only at h
    subst h
    rfl
  · intro h
    simp only at h
    subst h
    rfl
  · intro h
    simp only at h
    subst h
    rfl
  · intro hbc hbod
    simp only at hbc hbod
    subst hbod
    exact Eq.trans (firstFailure_cons_of_true _ _ (jsEcho_defined bc hbc))
      (firstFailure_cons_of_false _ _ rfl)
  · intro hbc hbod hrd
    simp only at hbc hbod hrd
    subst hrd
    exact Eq.trans (firstFailure_cons_of_true _ _ (jsEcho_defined bc hbc))
      (Eq.trans (firstFailure_cons_of_true _ _ (jsEcho_defined bod hbod))
        (firstFailure_cons_of_false _ _ rfl))
  · intro o
    constructor
    · intro h hn
      subst hn
      exact absurd h (by decide)
    · exact jsEcho_defined o

/-- Fixture with `buildCommand` `undefined` (C10 witness, first field). -/
def fixC10n : FixtureConfig :=
  { buildConfig := ⟨none, some "dist", some "."⟩
    compatibilityDate := "2023-01-01"
    compatibilityFlags := []
    deploymentConfig := emptyFeaturesConfig }

/-- Fixture with `buildOutputDirectory` `undefined` (C10 witness, second
field). -/
def fixC10b : FixtureConfig :=
  { buildConfig := ⟨some "build it", none, some "."⟩
    compatibilityDate := "2023-01-01"
    compatibilityFlags := []
    deploymentConfig := emptyFeaturesConfig }

/-- Fixture with `rootDirectory` `undefined` (C10 witness, third field). -/
def fixC10r : FixtureConfig :=
  { buildConfig := ⟨some "build it", some "dist", none⟩
    compatibilityDate := "2023-01-01"
    compatibilityFlags := []
    deploymentConfig := emptyFeaturesConfig }

/-- Witness for C10 (amended), one concrete fixture per build field: an
`undefined` `buildCommand`, `buildOutputDirectory` or `rootDirectory`
makes the payload carry the empty string for that field and makes
verification of the exact echo reject with that field's own message. -/
theorem C10_undefinedBuildFieldRejects_witness :
    ((updatePayload fixC10n emptyFeaturesConfig projInitC10
        Environment.production).build_config.build_command = "" ∧
      verifyProject
        { build_config := (updatePayload fixC10n emptyFeaturesConfig projInitC10
            Environment.production).build_config
          preview := projInitC10.preview } fixC10n emptyFeaturesConfig Environment.production =
        some "Build command was not set correctly.") ∧
    ((updatePayload fixC10b emptyFeaturesConfig projInitC10
        Environment.production).build_config.destination_dir = "" ∧
      verifyProject
        { build_config := (updatePayload fixC10b emptyFeaturesConfig projInitC10
            Environment.production).build_config
          preview := projInitC10.preview } fixC10b emptyFeaturesConfig Environment.production =
        some "Build output directory was not set correctly.") ∧
    ((updatePayload fixC10r emptyFeaturesConfig projInitC10
        Environment.production).build_config.root_dir = "" ∧
      verifyProject
        { build_config := (updatePayload fixC10r emptyFeaturesConfig projInitC10
            Environment.production).build_config
          preview := projInitC10.preview } fixC10r emptyFeaturesConfig Environment.production =
        some "Root directory was not set correctly.") := by
  have hn := C10_undefinedBuildFieldRejects fixC10n emptyFeaturesConfig projInitC10
    Environment.production projInitC10.preview
  have hb := C10_undefinedBuildFieldRejects fixC10b emptyFeaturesConfig projInitC10
    Environment.production projInitC10.preview
  have hr := C10_undefinedBuildFieldRejects fixC10r emptyFeaturesConfig projInitC10
    Environment.production projInitC10.preview
  exact ⟨⟨hn.1 rfl, hn.2.2.2.1 rfl⟩,
    ⟨hb.2.1 rfl, hb.2.2.2.2.1 (by decide) rfl⟩,
    ⟨hr.2.2.1 rfl, hr.2.2.2.2.2.1 (by decide) (by decide) rfl⟩⟩
